import Mathlib

/-!
Verification of the External Clinical Record Synchronization Engine
(`wellbyn-notes-backend`): a shallow embedding of the EHR connection
lifecycle, OAuth2 token handling, FHIR resource mapping and the sync
orchestration found in `routers/ehr.py`, `services/fhir_service.py`,
`services/ehr_service.py` and `services/metrics_service.py`, together
with theorems checking the specification's claims against it.

Conventions of the embedding:
- machine strings are Lean `String`; where the wire format is byte
  oriented (URL percent-encoding), strings are modelled as UTF-8 byte
  sequences (`List Nat`, each element < 256);
- timestamps are integers (seconds); `datetime.now()` becomes an explicit
  `now : Int` parameter, and `datetime.now().isoformat()` an explicit
  `nowIso : String` parameter;
- Python truthiness tests (`if x:`) on optional strings / lists /
  integers are modelled by explicit `…Truthy` helpers;
- outbound HTTP is modelled by oracle functions passed as parameters
  (a remote create either returns a parsed JSON value or raises, i.e.
  `Except String Json`); the trace of attempted wire calls is returned
  alongside the result;
- `raise HTTPException(status, detail)` becomes `Except.error ⟨status, detail⟩`.
-/

/-! ## Python truthiness helpers -/

/-- Truthiness of an optional string (`None` and `""` are falsy). -/
def optStrTruthy : Option String → Bool
  | none => false
  | some s => s ≠ ""

/-- Truthiness of an optional integer (`None` and `0` are falsy). -/
def optIntTruthy : Option Int → Bool
  | none => false
  | some n => n ≠ 0

/-- Truthiness of an optional list (`None` and `[]` are falsy). -/
def optListTruthy {α : Type} : Option (List α) → Bool
  | none => false
  | some l => !l.isEmpty

/-- ASCII lower-casing of one character (the case Python's
`str.lower()` performs on the provider identifiers used here). -/
def lowerChar (c : Char) : Char :=
  if 65 ≤ c.toNat ∧ c.toNat ≤ 90 then Char.ofNat (c.toNat + 32) else c

/-- Python `s.lower()` over the characters of the string. -/
def pyLower (s : String) : String :=
  ⟨s.data.map lowerChar⟩

/-! ## A small JSON value type (the FHIR wire format) -/

/-- JSON values as produced by the service layer when building FHIR
resource bodies (only the constructors the source actually uses). -/
inductive Json where
  | str (s : String)
  | obj (fields : List (String × Json))
  | arr (elems : List Json)

/-- Field lookup on a JSON object (`body["key"]`). -/
def Json.getField : Json → String → Option Json
  | .obj fields, k => fields.lookup k
  | _, _ => none

/-- Index lookup on a JSON array (`body[i]`). -/
def Json.getIdx : Json → Nat → Option Json
  | .arr elems, i => elems.get? i
  | _, _ => none

/-! ## UTF-8 and base64 (used by the eClinicalWorks document mapping) -/

/-- UTF-8 encoding of one Unicode scalar value, as a list of bytes. -/
def utf8EncodeScalar (n : Nat) : List Nat :=
  if n < 0x80 then [n]
  else if n < 0x800 then [0xC0 + n / 0x40, 0x80 + n % 0x40]
  else if n < 0x10000 then
    [0xE0 + n / 0x1000, 0x80 + (n / 0x40) % 0x40, 0x80 + n % 0x40]
  else
    [0xF0 + n / 0x40000, 0x80 + (n / 0x1000) % 0x40,
     0x80 + (n / 0x40) % 0x40, 0x80 + n % 0x40]

/-- UTF-8 bytes of a string (Python `s.encode("utf-8")`). -/
def utf8Bytes (s : String) : List Nat :=
  (s.data.map (fun c => utf8EncodeScalar c.toNat)).flatten

/-- The base64 alphabet, digit by digit. -/
def b64digit (n : Nat) : Char :=
  if n < 26 then Char.ofNat (65 + n)
  else if n < 52 then Char.ofNat (97 + (n - 26))
  else if n < 62 then Char.ofNat (48 + (n - 52))
  else if n = 62 then '+' else '/'

/-- Base64 of a byte sequence (Python `base64.b64encode`), 3 bytes → 4 chars. -/
def base64Core : List Nat → List Char
  | a :: b :: c :: rest =>
      b64digit (a / 4) :: b64digit ((a % 4) * 16 + b / 16) ::
      b64digit ((b % 16) * 4 + c / 64) :: b64digit (c % 64) :: base64Core rest
  | [a, b] => [b64digit (a / 4), b64digit ((a % 4) * 16 + b / 16),
               b64digit ((b % 16) * 4), '=']
  | [a] => [b64digit (a / 4), b64digit ((a % 4) * 16), '=', '=']
  | [] => []

/-- `base64.b64encode(s.encode("utf-8")).decode("utf-8")`. -/
def base64Encode (s : String) : String :=
  ⟨base64Core (utf8Bytes s)⟩

/-! ## URL percent-encoding (Python `urllib.parse.urlencode` /
`quote_plus`), modelled over UTF-8 byte sequences -/

/-- Bytes CPython's `quote` never escapes: ASCII letters, digits,
`_`, `.`, `-`, `~`. -/
def isSafeByte (b : Nat) : Bool :=
  (65 ≤ b && b ≤ 90) || (97 ≤ b && b ≤ 122) || (48 ≤ b && b ≤ 57) ||
  b = 95 || b = 46 || b = 45 || b = 126

/-- Upper-case hex digit byte for a nibble. -/
def hexDigitByte (n : Nat) : Nat :=
  if n < 10 then 48 + n else 55 + n

/-- `quote_plus` on a single byte: space becomes `+`, safe bytes pass
through, everything else becomes `%XX`. -/
def quotePlusByte (b : Nat) : List Nat :=
  if b = 32 then [43]
  else if isSafeByte b then [b]
  else [37, hexDigitByte (b / 16), hexDigitByte (b % 16)]

/-- `urllib.parse.quote_plus` over a byte sequence. -/
def quotePlus : List Nat → List Nat
  | [] => []
  | b :: rest => quotePlusByte b ++ quotePlus rest

/-- Inverse of `quote_plus`: `+` back to space, `%XX` back to the byte. -/
def unhexDigit (d : Nat) : Nat :=
  if d ≤ 57 then d - 48 else d - 55

/-- Decoder for `quote_plus`-encoded byte sequences (`%XX` back to the
byte, `+` back to space, other bytes kept). -/
def decodePlus : List Nat → List Nat
  | 37 :: h :: l :: rest => (unhexDigit h * 16 + unhexDigit l) :: decodePlus rest
  | 43 :: rest => 32 :: decodePlus rest
  | b :: rest => b :: decodePlus rest
  | [] => []

/-- `"&".join`-style concatenation of already-encoded `k=v` parts.
(`urlencode` joins parts with `&`.) -/
def joinAmp : List (List Nat) → List Nat
  | [] => []
  | [p] => p
  | p :: rest => p ++ 38 :: joinAmp rest

/-- Python `urllib.parse.urlencode(params)` with the default
`quote_via=quote_plus`: encodes each key and value and joins
`key=value` parts with `&`. -/
def pyUrlencode (params : List (List Nat × List Nat)) : List Nat :=
  joinAmp (params.map (fun kv => quotePlus kv.1 ++ 61 :: quotePlus kv.2))

/-- Splitting a byte sequence on a separator byte (Python `s.split(sep)`). -/
def splitOnByte (sep : Nat) : List Nat → List (List Nat)
  | [] => [[]]
  | b :: rest =>
      let r := splitOnByte sep rest
      if b = sep then [] :: r
      else
        match r with
        | [] => [[b]]
        | h :: t => (b :: h) :: t

/-- Splitting at the first occurrence of a byte (`s.split(sep, 1)`). -/
def splitFirstByte (sep : Nat) : List Nat → List Nat × List Nat
  | [] => ([], [])
  | b :: rest =>
      if b = sep then ([], rest)
      else
        let kv := splitFirstByte sep rest
        (b :: kv.1, kv.2)

/-- Parse a query string into decoded key/value pairs: split on `&`,
split each part at the first `=`, and percent-decode both sides. -/
def parseQS (q : List Nat) : List (List Nat × List Nat) :=
  (splitOnByte 38 q).map (fun part =>
    let kv := splitFirstByte 61 part
    (decodePlus kv.1, decodePlus kv.2))

/-- `" ".join(scopes)` over byte-sequence scopes. -/
def joinSpaceBytes : List (List Nat) → List Nat
  | [] => []
  | [s] => s
  | s :: rest => s ++ 32 :: joinSpaceBytes rest

/-- Every element of the sequence is a byte. -/
def isByteSeq (s : List Nat) : Prop := ∀ b ∈ s, b < 256

instance (s : List Nat) : Decidable (isByteSeq s) := by
  unfold isByteSeq; infer_instance

/-! ## Data model (`models/ehr_connection.py`, `models/metrics.py`,
`schemas/ehr.py`) -/

/-- One row of `ehr_connections` (`models/ehr_connection.py`,
class `EHRConnection`). Timestamps are seconds (`Int`); JSON columns
`scopes` and `extra_metadata` are a string list and a string-keyed
association list. -/
structure EHRConnectionRec where
  id : Nat
  ehr_provider : String
  ehr_name : String
  client_id : Option String
  client_secret : Option String
  access_token : Option String
  refresh_token : Option String
  token_expires_at : Option Int
  practice_id : Option String
  practice_name : Option String
  base_url : String
  fhir_version : String
  scopes : Option (List String)
  is_active : Bool
  last_sync_at : Option Int
  last_error : Option String
  extra_metadata : List (String × String)

/-- One row of `ehr_syncs` (`models/ehr_connection.py`, class `EHRSync`),
as populated by `EHRService.create_sync`. -/
structure EHRSyncRow where
  id : Nat
  connection_id : Nat
  transcription_id : Option Nat
  sync_type : String
  fhir_resource_type : Option String
  fhir_resource_id : Option String
  status : String
  request_data : Option Json
  response_data : Option Json

/-- One row of `ehr_audit_logs` (`models/metrics.py`, class `EHRAuditLog`),
as populated by `MetricsService.create_ehr_audit_log`. -/
structure EHRAuditLogRow where
  id : Nat
  transcription_id : Nat
  connection_id : Nat
  doctor_id : Nat
  data_written : Json
  fhir_resource_type : Option String
  fhir_resource_id : Option String
  doctor_approval : Bool
  ai_assisted_flag : Bool

/-- The tables the EHR subsystem touches. -/
structure Database where
  syncs : List EHRSyncRow
  audit_logs : List EHRAuditLogRow

/-- An ICD-10 entry of `transcription.icd10_codes` (the sync mapping in
`fhir_service.py` reads only `code` and `description`). -/
structure Icd10Code where
  code : String
  description : String

/-- A CPT entry of `transcription.cpt_codes` (the sync mapping reads
`code`, `description` and the optional `modifier`). -/
structure CptCode where
  code : String
  description : String
  modifier : Option String

/-- The fields of a `Transcription` row that the sync endpoint reads. -/
structure TranscriptionRec where
  id : Nat
  medical_note : Option String
  icd10_codes : Option (List Icd10Code)
  cpt_codes : Option (List CptCode)

/-- The `transcription_data` dict assembled in
`routers/ehr.py::sync_transcription_to_ehr` (lines 286-290). -/
structure TranscriptionData where
  medical_note : String
  icd10_codes : List Icd10Code
  cpt_codes : List CptCode

/-- An OAuth2 token payload as returned by the token endpoint
(`exchange_code_for_token` / `refresh_access_token` response JSON). -/
structure TokenPayload where
  access_token : String
  refresh_token : Option String
  expires_in : Option Int

/-- `raise HTTPException(status_code, detail)`. -/
structure HTTPErr where
  status : Nat
  detail : String

/-- `schemas/ehr.py::EHRConnectionUpdate`: the only fields the public
connection-update operation exposes. `none` means the field was not
provided (pydantic `exclude_unset`). The schema's `metadata` field is
the model's `extra_metadata` JSON column. -/
structure EHRConnectionUpdate where
  ehr_name : Option String
  base_url : Option String
  practice_id : Option String
  practice_name : Option String
  is_active : Option Bool
  metadata : Option (List (String × String))

/-! ## Connection lifecycle (`services/ehr_service.py`) -/

/-- `EHRService.update_connection`: applies exactly the fields present in
`update_data.dict(exclude_unset=True)` to the stored row. One fidelity
note: the source's `setattr(connection, "metadata", v)` targets the
instance attribute named `metadata`, not the `extra_metadata` column
(the model renamed the column because `metadata` is reserved), so the
real update never writes that column; the model maps the schema field
onto `extra_metadata` as the generous reading. Every theorem below that
uses this definition concerns only the other fields, which the real
program also leaves unchanged (a fortiori under the quirk). -/
def updateConnection (c : EHRConnectionRec) (u : EHRConnectionUpdate) :
    EHRConnectionRec :=
  { c with
    ehr_name := u.ehr_name.getD c.ehr_name
    base_url := u.base_url.getD c.base_url
    practice_id := match u.practice_id with | some p => some p | none => c.practice_id
    practice_name := match u.practice_name with | some p => some p | none => c.practice_name
    is_active := u.is_active.getD c.is_active
    extra_metadata := u.metadata.getD c.extra_metadata }

/-- `EHRService.update_tokens` (lines 118-142): stores the new access
token, keeps the old refresh token unless a truthy new one is given,
recomputes `token_expires_at` only when `expires_in` is truthy, and
clears `last_error`. -/
def updateTokens (c : EHRConnectionRec) (access_token : String)
    (refresh_token : Option String) (expires_in : Option Int) (now : Int) :
    EHRConnectionRec :=
  { c with
    access_token := some access_token
    refresh_token :=
      if optStrTruthy refresh_token then refresh_token else c.refresh_token
    token_expires_at :=
      if optIntTruthy expires_in then some (now + expires_in.getD 0)
      else c.token_expires_at
    last_error := none }

/-- `EHRService.create_sync`: appends one `EHRSync` row (ids are
allocated sequentially by the store). -/
def createSync (db : Database) (connection_id : Nat)
    (transcription_id : Option Nat) (sync_type : String)
    (fhir_resource_type fhir_resource_id : Option String) (status : String)
    (request_data response_data : Option Json) : Database × EHRSyncRow :=
  let row : EHRSyncRow :=
    { id := db.syncs.length + 1
      connection_id := connection_id
      transcription_id := transcription_id
      sync_type := sync_type
      fhir_resource_type := fhir_resource_type
      fhir_resource_id := fhir_resource_id
      status := status
      request_data := request_data
      response_data := response_data }
  ({ db with syncs := db.syncs ++ [row] }, row)

/-- `MetricsService.create_ehr_audit_log` (lines 326-356): appends one
`EHRAuditLog` row with exactly the given accountability fields. -/
def createEhrAuditLog (db : Database) (transcription_id connection_id
    doctor_id : Nat) (data_written : Json)
    (fhir_resource_type fhir_resource_id : Option String)
    (doctor_approval ai_assisted_flag : Bool) : Database × EHRAuditLogRow :=
  let row : EHRAuditLogRow :=
    { id := db.audit_logs.length + 1
      transcription_id := transcription_id
      connection_id := connection_id
      doctor_id := doctor_id
      data_written := data_written
      fhir_resource_type := fhir_resource_type
      fhir_resource_id := fhir_resource_id
      doctor_approval := doctor_approval
      ai_assisted_flag := ai_assisted_flag }
  ({ db with audit_logs := db.audit_logs ++ [row] }, row)

/-! ## FHIR wire client (`services/fhir_service.py`, class `FHIRService`) -/

/-- `FHIRService.get_authorization_url` (lines 30-56), over UTF-8 byte
sequences. Builds `{base_url}/authorize?{urlencode(params)}` with params
`response_type=code`, `client_id`, `redirect_uri`, space-joined `scope`,
`aud={base_url}`, and `state` appended only when truthy. A `None`
client id is stringified by `urlencode` (Python `str(None) = "None"`). -/
def fhirGetAuthorizationUrl (base_url : List Nat)
    (client_id : Option (List Nat)) (redirect_uri : List Nat)
    (scopes : List (List Nat)) (state : Option (List Nat)) : List Nat :=
  let cid := match client_id with
    | some c => c
    | none => utf8Bytes "None"
  let params : List (List Nat × List Nat) :=
    [(utf8Bytes "response_type", utf8Bytes "code"),
     (utf8Bytes "client_id", cid),
     (utf8Bytes "redirect_uri", redirect_uri),
     (utf8Bytes "scope", joinSpaceBytes scopes),
     (utf8Bytes "aud", base_url)]
  let params := match state with
    | some s => if s.isEmpty then params else params ++ [(utf8Bytes "state", s)]
    | none => params
  base_url ++ utf8Bytes "/authorize?" ++ pyUrlencode params

/-- The in-memory token state of a `FHIRService` instance
(`self.access_token`, `self.token_expires_at`). -/
structure FHIRTokenState where
  access_token : Option String
  token_expires_at : Option Int

/-- `FHIRService.set_access_token` (lines 128-140): stores the token and
sets `token_expires_at = now + expires_in` when `expires_in` is truthy,
`None` otherwise. -/
def setAccessToken (access_token : String) (expires_in : Option Int)
    (now : Int) : FHIRTokenState :=
  { access_token := some access_token
    token_expires_at :=
      if optIntTruthy expires_in then some (now + expires_in.getD 0) else none }

/-- `FHIRService._ensure_valid_token` (lines 142-161). The token
endpoint's behaviour is the oracle `refreshOutcome` (what
`refresh_access_token` would return, or the exception it would raise).
Returns the final token state plus the refresh-token value the function
returns, and a flag recording whether `refresh_access_token` was
invoked. Refresh happens exactly when an expiry is set and
`now >= token_expires_at - 5 minutes` (300 s). -/
def ensureValidToken (st : FHIRTokenState) (now : Int)
    (refresh_token : Option String)
    (refreshOutcome : Except String TokenPayload) :
    Except String (FHIRTokenState × Option String) × Bool :=
  if ¬ optStrTruthy st.access_token then
    (.error "No access token available", false)
  else
    match st.token_expires_at with
    | some t =>
        if now ≥ t - 300 then
          if optStrTruthy refresh_token then
            match refreshOutcome with
            | .ok payload =>
                (.ok (setAccessToken payload.access_token payload.expires_in now,
                      some (payload.refresh_token.getD (refresh_token.getD ""))),
                 true)
            | .error e => (.error e, true)
          else (.error "Token expired and no refresh token available", false)
        else (.ok (st, refresh_token), false)
    | none => (.ok (st, refresh_token), false)

/-! ## FHIR resource bodies built by
`EClinicalWorksFHIRService.sync_transcription_to_ehr` (lines 339-433) -/

/-- The `DocumentReference` body of lines 343-363: LOINC progress-note
coding and a base64-encoded plain-text attachment. -/
def documentReferenceBody (nowIso : String) (medical_note : String)
    (patient_id : String) : Json :=
  .obj
    [("resourceType", .str "DocumentReference"),
     ("status", .str "current"),
     ("type", .obj
       [("coding", .arr
         [.obj [("system", .str "http://loinc.org"),
                ("code", .str "11506-3"),
                ("display", .str "Progress note")]])]),
     ("subject", .obj [("reference", .str ("Patient/" ++ patient_id))]),
     ("date", .str nowIso),
     ("content", .arr
       [.obj [("attachment", .obj
         [("contentType", .str "text/plain"),
          ("data", .str (base64Encode medical_note))])]])]

/-- The `Condition` body of lines 370-402: active/confirmed status,
SNOMED diagnosis category, ICD-10-CM coding, and the patient subject. -/
def conditionBody (nowIso : String) (patient_id : String)
    (icd10 : Icd10Code) : Json :=
  .obj
    [("resourceType", .str "Condition"),
     ("clinicalStatus", .obj
       [("coding", .arr
         [.obj [("system", .str "http://terminology.hl7.org/CodeSystem/condition-clinical"),
                ("code", .str "active")]])]),
     ("verificationStatus", .obj
       [("coding", .arr
         [.obj [("system", .str "http://terminology.hl7.org/CodeSystem/condition-ver-status"),
                ("code", .str "confirmed")]])]),
     ("category", .arr
       [.obj [("coding", .arr
         [.obj [("system", .str "http://snomed.info/sct"),
                ("code", .str "439401001"),
                ("display", .str "Diagnosis")]])]]),
     ("code", .obj
       [("coding", .arr
         [.obj [("system", .str "http://hl7.org/fhir/sid/icd-10-cm"),
                ("code", .str icd10.code),
                ("display", .str icd10.description)]])]),
     ("subject", .obj [("reference", .str ("Patient/" ++ patient_id))]),
     ("recordedDate", .str nowIso)]

/-- The `Procedure` body of lines 410-429: completed status, CPT coding,
patient subject, and a modifier extension when a truthy modifier is set. -/
def procedureBody (nowIso : String) (patient_id : String)
    (cpt : CptCode) : Json :=
  let base : List (String × Json) :=
    [("resourceType", .str "Procedure"),
     ("status", .str "completed"),
     ("code", .obj
       [("coding", .arr
         [.obj [("system", .str "http://www.ama-assn.org/go/cpt"),
                ("code", .str cpt.code),
                ("display", .str cpt.description)]])]),
     ("subject", .obj [("reference", .str ("Patient/" ++ patient_id))]),
     ("performedDateTime", .str nowIso)]
  if optStrTruthy cpt.modifier then
    .obj (base ++
      [("modifierExtension", .arr
        [.obj [("url", .str "http://hl7.org/fhir/StructureDefinition/procedure-modifier"),
               ("valueCode", .str (cpt.modifier.getD ""))]])])
  else .obj base

/-! ## The eClinicalWorks sync routine
(`EClinicalWorksFHIRService.sync_transcription_to_ehr`, lines 321-433) -/

/-- One attempted remote resource creation (`create_document_reference`,
`create_condition`, `create_procedure`), each a `POST` through
`_make_fhir_request`. -/
inductive WireCall where
  | createDocumentReference (body : Json)
  | createCondition (body : Json)
  | createProcedure (body : Json)

/-- Whether a wire call is a `Condition` create. -/
def WireCall.isCondition : WireCall → Bool
  | .createCondition _ => true
  | _ => false

/-- Whether a wire call is a `Procedure` create. -/
def WireCall.isProcedure : WireCall → Bool
  | .createProcedure _ => true
  | _ => false

/-- Whether a wire call is a `DocumentReference` create. -/
def WireCall.isDocumentReference : WireCall → Bool
  | .createDocumentReference _ => true
  | _ => false

/-- Sequentially attempt a list of creates against the remote oracle,
stopping at the first exception (Python raises out of the loop).
Returns the collected responses or the first error, together with the
trace of calls actually attempted (including a failing one). -/
def attemptCreates (remote : WireCall → Except String Json) :
    List WireCall → Except String (List Json) × List WireCall
  | [] => (.ok [], [])
  | c :: rest =>
      match remote c with
      | .error e => (.error e, [c])
      | .ok j =>
          let r := attemptCreates remote rest
          (match r.1 with
           | .error e => .error e
           | .ok js => .ok (j :: js), c :: r.2)

/-- The `results` dict of `sync_transcription_to_ehr`: a key is present
exactly when the corresponding branch ran. -/
structure EcwResults where
  document_reference : Option Json
  conditions : Option (List Json)
  procedures : Option (List Json)

/-- The empty `results` dict. -/
def EcwResults.empty : EcwResults := ⟨none, none, none⟩

/-- `EClinicalWorksFHIRService.sync_transcription_to_ehr` (the service
method in `fhir_service.py`): build and send the DocumentReference
(when a note is present), then one Condition per ICD-10 code (when
any), then one Procedure per CPT code (when any), sequentially in that
order; any exception propagates immediately and aborts the remainder.
`_ensure_valid_token` inside `_make_fhir_request` is abstracted into
the `remote` oracle. Returns the result (the `results` dict or the
first exception) and the trace of attempted calls. Note that
`routers/ehr.py` never imports this class, so this routine is
unreachable from the sync endpoint (see `syncEndpoint`). -/
def ecwSyncTranscription (remote : WireCall → Except String Json)
    (nowIso : String) (td : TranscriptionData) (patient_id : String) :
    Except String EcwResults × List WireCall :=
  let docStep : Except String (Option Json) × List WireCall :=
    if td.medical_note ≠ "" then
      let call := WireCall.createDocumentReference
        (documentReferenceBody nowIso td.medical_note patient_id)
      match remote call with
      | .error e => (.error e, [call])
      | .ok j => (.ok (some j), [call])
    else (.ok none, [])
  match docStep with
  | (.error e, tr) => (.error e, tr)
  | (.ok docRes, tr1) =>
      let condStep : Except String (Option (List Json)) × List WireCall :=
        if !td.icd10_codes.isEmpty then
          let r := attemptCreates remote (td.icd10_codes.map
            (fun icd => WireCall.createCondition (conditionBody nowIso patient_id icd)))
          (match r.1 with
           | .error e => .error e
           | .ok js => .ok (some js), r.2)
        else (.ok none, [])
      match condStep with
      | (.error e, tr2) => (.error e, tr1 ++ tr2)
      | (.ok condRes, tr2) =>
          let procStep : Except String (Option (List Json)) × List WireCall :=
            if !td.cpt_codes.isEmpty then
              let r := attemptCreates remote (td.cpt_codes.map
                (fun cpt => WireCall.createProcedure (procedureBody nowIso patient_id cpt)))
              (match r.1 with
               | .error e => .error e
               | .ok js => .ok (some js), r.2)
            else (.ok none, [])
          match procStep with
          | (.error e, tr3) => (.error e, tr1 ++ tr2 ++ tr3)
          | (.ok procRes, tr3) =>
              (.ok ⟨docRes, condRes, procRes⟩, tr1 ++ tr2 ++ tr3)

/-! ## Router endpoints (`routers/ehr.py`) -/

/-- Association-list update (dict key assignment
`extra_metadata["last_auth_state"] = token`). -/
def setMeta (md : List (String × String)) (k v : String) :
    List (String × String) :=
  if md.lookup k = none then md ++ [(k, v)]
  else md.map (fun kv => if kv.1 = k then (k, v) else kv)

/-- The success payload of the authorize endpoint. -/
structure AuthorizePayload where
  authorization_url : List Nat
  state : String
  connection_id : Nat

/-- Everything the authorize endpoint did: its HTTP result, the
connection as persisted afterwards, whether a state token was
generated (`secrets.token_urlsafe(32)` reached), and whether an
authorization URL was built through the wire client. -/
structure AuthorizeOutcome where
  result : Except HTTPErr AuthorizePayload
  conn : EHRConnectionRec
  stateGenerated : Bool
  urlBuilt : Bool

/-- `routers/ehr.py::get_authorization_url` (lines 124-179), for a
connection already resolved by id. Rejects with HTTP 400 before doing
anything else when `client_id` is falsy; otherwise falls back to the
connection's scopes (or the default pair), generates the state token
(`freshState`, the value `secrets.token_urlsafe(32)` would produce),
builds the authorization URL, and persists the state token under
`extra_metadata["last_auth_state"]`. -/
def authorizeEndpoint (conn : EHRConnectionRec) (redirect_uri : String)
    (scopes : Option (List String)) (freshState : String) :
    AuthorizeOutcome :=
  if ¬ optStrTruthy conn.client_id then
    { result := .error ⟨400, "Client ID not configured for this connection"⟩
      conn := conn
      stateGenerated := false
      urlBuilt := false }
  else
    let scopes' :=
      if ¬ optListTruthy scopes then
        match conn.scopes with
        | some l => if l.isEmpty then ["patient/*.read", "user/*.write"] else l
        | none => ["patient/*.read", "user/*.write"]
      else scopes.getD []
    let url := fhirGetAuthorizationUrl (utf8Bytes conn.base_url)
      (conn.client_id.map utf8Bytes) (utf8Bytes redirect_uri)
      (scopes'.map utf8Bytes) (some (utf8Bytes freshState))
    { result := .ok ⟨url, freshState, conn.id⟩
      conn := { conn with
                extra_metadata := setMeta conn.extra_metadata "last_auth_state" freshState }
      stateGenerated := true
      urlBuilt := true }

/-- The success payload of the OAuth2 callback endpoint. -/
structure CallbackPayload where
  success : Bool
  message : String
  connection_id : Nat

/-- Everything the callback endpoint did: its HTTP result, the
connection as persisted afterwards, whether the state-mismatch branch
merely logged a warning, and whether the authorization code was
exchanged at the token endpoint. -/
structure CallbackOutcome where
  result : Except HTTPErr CallbackPayload
  conn : EHRConnectionRec
  warnedStateMismatch : Bool
  codeExchanged : Bool

/-- `routers/ehr.py::handle_authorization_callback` (lines 182-234), for
a connection already resolved by id. The token endpoint is the oracle
`exchange` (what `exchange_code_for_token` returns, or the exception it
raises). A state mismatch — a truthy `state`, a non-empty
`extra_metadata`, and a stored `last_auth_state` different from
`state` — only logs a warning (lines 201-203); the code is exchanged
regardless. On success the tokens are persisted via
`EHRService.update_tokens` and `last_sync_at` is reset to `None`;
on failure `last_error` is set and HTTP 400 is returned. -/
def callbackEndpoint (conn : EHRConnectionRec) (code redirect_uri : String)
    (state : Option String)
    (exchange : Except String TokenPayload) (now : Int) : CallbackOutcome :=
  let warned :=
    optStrTruthy state && !conn.extra_metadata.isEmpty &&
      (conn.extra_metadata.lookup "last_auth_state" != state)
  match exchange with
  | .ok payload =>
      let conn' := updateTokens conn payload.access_token
        payload.refresh_token payload.expires_in now
      let conn' := { conn' with last_sync_at := none }
      { result := .ok ⟨true, "Authorization successful. Connection is now active.", conn.id⟩
        conn := conn'
        warnedStateMismatch := warned
        codeExchanged := true }
  | .error e =>
      { result := .error ⟨400, "Failed to exchange authorization code: " ++ e⟩
        conn := { conn with last_error := some e }
        warnedStateMismatch := warned
        codeExchanged := true }

/-- The `request_data` snapshot
`{"patient_id": ..., "sync_types": [...]}` of the sync record. -/
def syncRequestJson (patient_id : String) (sync_types : List String) : Json :=
  .obj [("patient_id", .str patient_id),
        ("sync_types", .arr (sync_types.map .str))]

/-- The `results` dict rendered as the `response_data` JSON snapshot. -/
def ecwResultsJson (r : EcwResults) : Json :=
  .obj ((match r.document_reference with
         | some j => [("document_reference", j)]
         | none => []) ++
        (match r.conditions with
         | some js => [("conditions", Json.arr js)]
         | none => []) ++
        (match r.procedures with
         | some js => [("procedures", Json.arr js)]
         | none => []))

/-- `str(e)` for the `NameError` raised at `routers/ehr.py` line 303:
the module references `EClinicalWorksFHIRService` in its `isinstance`
test without ever importing it (its imports are only `EHRService`,
`TranscriptionService`, the schemas, `get_db` and `secrets`). -/
def ecwNameErrorMsg : String :=
  "name \x27EClinicalWorksFHIRService\x27 is not defined"

/-- The success body of the sync endpoint. -/
structure SyncPayload where
  success : Bool
  message : String
  sync_id : Nat
  resources_created : EcwResults

/-- Everything the sync endpoint did: its HTTP result, the database and
connection as persisted afterwards, and the trace of attempted remote
creates. -/
structure SyncOutcome where
  result : Except HTTPErr SyncPayload
  db : Database
  conn : EHRConnectionRec
  calls : List WireCall

/-- `routers/ehr.py::sync_transcription_to_ehr` (lines 237-383), for a
connection already resolved by id. In source order: reject an inactive
connection (400), a connection without an access token (400), a missing
transcription (404), and a transcription without a truthy
`medical_note` (400) — all before any remote call and before any row is
written. Then build `transcription_data`, default falsy `sync_types` to
all three types, and dispatch inside the `try` block: for provider
`eclinicalworks`, line 303 evaluates
`isinstance(fhir_service, EClinicalWorksFHIRService)` — but that name
is never imported by the module, so the lookup raises `NameError`
before any wire call (both the `isinstance`-true call into the service
sync and the `isinstance`-false generic fallback are unreachable); for
any other provider the generic branch leaves `results = {}` and makes
no wire call either. On a normal return, append a `full_sync` sync row
with status `success`, set `last_sync_at` and clear `last_error`; on an
exception (for `eclinicalworks`, always the `NameError`), append a
`full_sync` row with status `failed`, record the error in `last_error`,
and return HTTP 500. -/
def syncEndpoint (db : Database) (conn : EHRConnectionRec)
    (transcription : Option TranscriptionRec) (patient_id : String)
    (sync_types : Option (List String))
    (remote : WireCall → Except String Json) (now : Int) (nowIso : String) :
    SyncOutcome :=
  if ¬ conn.is_active then
    ⟨.error ⟨400, "EHR connection is not active"⟩, db, conn, []⟩
  else if ¬ optStrTruthy conn.access_token then
    ⟨.error ⟨400, "Connection not authorized. Please complete OAuth2 authorization first."⟩,
     db, conn, []⟩
  else
    match transcription with
    | none => ⟨.error ⟨404, "Transcription not found"⟩, db, conn, []⟩
    | some t =>
        if ¬ optStrTruthy t.medical_note then
          ⟨.error ⟨400, "Medical note must be generated before syncing to EHR"⟩,
           db, conn, []⟩
        else
          let td : TranscriptionData :=
            { medical_note := t.medical_note.getD ""
              icd10_codes := t.icd10_codes.getD []
              cpt_codes := t.cpt_codes.getD [] }
          let st :=
            if ¬ optListTruthy sync_types then ["document", "diagnosis", "procedure"]
            else sync_types.getD []
          let run : Except String EcwResults × List WireCall :=
            if pyLower conn.ehr_provider = "eclinicalworks" then
              (.error ecwNameErrorMsg, [])
            else
              (.ok EcwResults.empty, [])
          match run with
          | (.ok results, calls) =>
              let created := createSync db conn.id (some t.id) "full_sync"
                none none "success" (some (syncRequestJson patient_id st))
                (some (ecwResultsJson results))
              { result := .ok ⟨true, "Transcription synced successfully to EHR",
                               created.2.id, results⟩
                db := created.1
                conn := { conn with last_sync_at := some now, last_error := none }
                calls := calls }
          | (.error e, calls) =>
              let created := createSync db conn.id (some t.id) "full_sync"
                none none "failed" (some (syncRequestJson patient_id st))
                (some (Json.obj [("error", .str e)]))
              { result := .error ⟨500, "Failed to sync to EHR: " ++ e⟩
                db := created.1
                conn := { conn with last_error := some e }
                calls := calls }

/-! ## Concrete fixtures used to evaluate the endpoints -/

/-- An authorized, active eClinicalWorks connection. -/
def connEcw : EHRConnectionRec :=
  { id := 1
    ehr_provider := "eclinicalworks"
    ehr_name := "Main clinic ECW"
    client_id := some "client-1"
    client_secret := some "secret-1"
    access_token := some "access-1"
    refresh_token := some "refresh-1"
    token_expires_at := some 10000
    practice_id := none
    practice_name := some "Main clinic"
    base_url := "https://fhir.example.org/fhir/r4"
    fhir_version := "R4"
    scopes := some ["patient/*.read", "user/*.write"]
    is_active := true
    last_sync_at := none
    last_error := none
    extra_metadata := [] }

/-- `connEcw` with a pending CSRF state token stored. -/
def connWithState : EHRConnectionRec :=
  { connEcw with extra_metadata := [("last_auth_state", "expected-state")] }

/-- `connEcw` with no stored token expiry and a stale error. -/
def connNoExpiry : EHRConnectionRec :=
  { connEcw with token_expires_at := none, last_error := some "old error" }

/-- A connection with no OAuth client id configured. -/
def connNoClientId : EHRConnectionRec :=
  { connEcw with client_id := none }

/-- An authorized, active connection to a non-eClinicalWorks provider
(served by the generic branch of the sync endpoint). -/
def connGeneric : EHRConnectionRec :=
  { connEcw with ehr_provider := "athenahealth" }

/-- A transcription with a note, one diagnosis and one procedure. -/
def txFull : TranscriptionRec :=
  { id := 7
    medical_note := some "Progress note text"
    icd10_codes := some [⟨"I10", "Essential hypertension"⟩]
    cpt_codes := some [⟨"99213", "Office outpatient visit", none⟩] }

/-- A transcription with a note but empty diagnosis and procedure lists. -/
def txNoteOnly : TranscriptionRec :=
  { id := 8
    medical_note := some "Note only"
    icd10_codes := some []
    cpt_codes := some [] }

/-- A transcription whose note was never generated. -/
def txNoNote : TranscriptionRec :=
  { id := 9
    medical_note := none
    icd10_codes := some [⟨"I10", "Essential hypertension"⟩]
    cpt_codes := some [] }

/-- An empty store. -/
def dbEmpty : Database := ⟨[], []⟩

/-- A remote FHIR server on which every create succeeds. -/
def remoteAllOk : WireCall → Except String Json :=
  fun _ => .ok (.obj [("id", .str "created-1")])

/-- A remote FHIR server on which the document create fails and every
other create succeeds. -/
def remoteFailDoc : WireCall → Except String Json
  | .createDocumentReference _ => .error "document create rejected"
  | _ => .ok (.obj [("id", .str "created-1")])

/-- A full token payload, as a well-behaved token endpoint returns it. -/
def tokenPayloadFull : TokenPayload :=
  ⟨"new-access-token", some "new-refresh-token", some 3600⟩

/-- A token payload without `refresh_token` or `expires_in` (both are
optional in the OAuth2 token response). -/
def tokenPayloadBare : TokenPayload :=
  ⟨"new-access-token", none, none⟩

/-! ## Lemmas about percent-encoding and query parsing -/

/-- The encoder's output never contains `&` (38) or `=` (61). -/
theorem mem_quotePlusByte_ne (x b : Nat) (hx : x ∈ quotePlusByte b) :
    x ≠ 38 ∧ x ≠ 61 := by
  unfold quotePlusByte at hx
  split at hx
  · simp only [List.mem_singleton] at hx
    omega
  · split at hx
    · next hsafe =>
        simp only [List.mem_singleton] at hx
        subst hx
        constructor <;> rintro rfl <;> exact absurd hsafe (by decide)
    · simp only [List.mem_cons, List.mem_singleton, List.not_mem_nil,
        or_false] at hx
      unfold hexDigitByte at hx
      rcases hx with rfl | rfl | rfl
      · omega
      · constructor <;> split <;> omega
      · constructor <;> split <;> omega

/-- `&` never occurs in a `quote_plus`-encoded sequence. -/
theorem not_mem_quotePlus_38 (s : List Nat) : 38 ∉ quotePlus s := by
  induction s with
  | nil => simp [quotePlus]
  | cons b rest ih =>
      unfold quotePlus
      intro hmem
      rcases List.mem_append.mp hmem with h | h
      · exact (mem_quotePlusByte_ne 38 b h).1 rfl
      · exact ih h

/-- `=` never occurs in a `quote_plus`-encoded sequence. -/
theorem not_mem_quotePlus_61 (s : List Nat) : 61 ∉ quotePlus s := by
  induction s with
  | nil => simp [quotePlus]
  | cons b rest ih =>
      unfold quotePlus
      intro hmem
      rcases List.mem_append.mp hmem with h | h
      · exact (mem_quotePlusByte_ne 61 b h).2 rfl
      · exact ih h

/-- Decoding a `+` byte yields a space. -/
theorem decodePlus_plus (rest : List Nat) :
    decodePlus (43 :: rest) = 32 :: decodePlus rest := rfl

/-- Decoding a `%XX` escape yields the encoded byte value. -/
theorem decodePlus_percent (h l : Nat) (rest : List Nat) :
    decodePlus (37 :: h :: l :: rest) =
      (unhexDigit h * 16 + unhexDigit l) :: decodePlus rest := rfl

/-- Decoding an unescaped, non-plus byte leaves it unchanged. -/
theorem decodePlus_other (b : Nat) (rest : List Nat) (h37 : b ≠ 37)
    (h43 : b ≠ 43) : decodePlus (b :: rest) = b :: decodePlus rest := by
  rw [decodePlus.eq_def]
  split
  · next heq => rw [List.cons.injEq] at heq; omega
  · next heq => rw [List.cons.injEq] at heq; omega
  · next heq =>
      rw [List.cons.injEq] at heq
      rw [heq.1, heq.2]
  · next heq => simp at heq

/-- A hex nibble round-trips through encode/decode. -/
theorem unhex_hexDigitByte (n : Nat) (h : n < 16) :
    unhexDigit (hexDigitByte n) = n := by
  unfold unhexDigit hexDigitByte
  split <;> split <;> omega

/-- Percent-decoding inverts `quote_plus` on byte sequences. -/
theorem decodePlus_quotePlus (s : List Nat) (h : isByteSeq s) :
    decodePlus (quotePlus s) = s := by
  induction s with
  | nil => simp [quotePlus, decodePlus]
  | cons b rest ih =>
      have hb : b < 256 := h b (List.mem_cons_self b rest)
      have hrest : isByteSeq rest := fun x hx => h x (List.mem_cons_of_mem b hx)
      have hq : quotePlus (b :: rest) = quotePlusByte b ++ quotePlus rest := rfl
      rw [hq]
      by_cases h32 : b = 32
      · subst h32
        rw [show quotePlusByte 32 = [43] from rfl, List.singleton_append,
            decodePlus_plus, ih hrest]
      · by_cases hsafe : isSafeByte b = true
        · have hqb : quotePlusByte b = [b] := by
            unfold quotePlusByte
            rw [if_neg h32, if_pos hsafe]
          have h37 : b ≠ 37 := by rintro rfl; exact absurd hsafe (by decide)
          have h43 : b ≠ 43 := by rintro rfl; exact absurd hsafe (by decide)
          rw [hqb, List.singleton_append, decodePlus_other b _ h37 h43, ih hrest]
        · have hqb : quotePlusByte b =
              [37, hexDigitByte (b / 16), hexDigitByte (b % 16)] := by
            unfold quotePlusByte
            rw [if_neg h32, if_neg hsafe]
          rw [hqb, List.cons_append, List.cons_append, List.cons_append,
              List.nil_append, decodePlus_percent,
              unhex_hexDigitByte (b / 16) (by omega),
              unhex_hexDigitByte (b % 16) (by omega), ih hrest]
          congr 1
          omega

/-- The defining equation of `splitOnByte` on a cons cell. -/
theorem splitOnByte_cons (sep b : Nat) (rest : List Nat) :
    splitOnByte sep (b :: rest) =
      if b = sep then [] :: splitOnByte sep rest
      else
        match splitOnByte sep rest with
        | [] => [[b]]
        | h :: t => (b :: h) :: t := rfl

/-- Splitting a separator-free sequence yields a single chunk. -/
theorem splitOnByte_no_sep (sep : Nat) (xs : List Nat) (h : sep ∉ xs) :
    splitOnByte sep xs = [xs] := by
  induction xs with
  | nil => rfl
  | cons b rest ih =>
      have hb : b ≠ sep := fun hb => h (hb ▸ List.mem_cons_self b rest)
      have hrest : sep ∉ rest := fun hm => h (List.mem_cons_of_mem b hm)
      rw [splitOnByte_cons, if_neg hb, ih hrest]

/-- Splitting pops the chunk before the first separator. -/
theorem splitOnByte_append (sep : Nat) (xs ys : List Nat) (h : sep ∉ xs) :
    splitOnByte sep (xs ++ sep :: ys) = xs :: splitOnByte sep ys := by
  induction xs with
  | nil => simp [splitOnByte]
  | cons b rest ih =>
      have hb : b ≠ sep := fun hb => h (hb ▸ List.mem_cons_self b rest)
      have hrest : sep ∉ rest := fun hm => h (List.mem_cons_of_mem b hm)
      rw [List.cons_append, splitOnByte_cons, if_neg hb, ih hrest]

/-- The first-split of `key ++ "=" ++ value` recovers the two sides when
the key is `=`-free. -/
theorem splitFirstByte_append (sep : Nat) (xs ys : List Nat)
    (h : sep ∉ xs) : splitFirstByte sep (xs ++ sep :: ys) = (xs, ys) := by
  induction xs with
  | nil => simp [splitFirstByte]
  | cons b rest ih =>
      have hb : b ≠ sep := fun hb => h (hb ▸ List.mem_cons_self b rest)
      have hrest : sep ∉ rest := fun hm => h (List.mem_cons_of_mem b hm)
      rw [List.cons_append]
      unfold splitFirstByte
      rw [if_neg hb, ih hrest]

/-- The defining equation of `joinAmp` on a two-or-more-element list. -/
theorem joinAmp_cons2 (p q : List Nat) (rest : List (List Nat)) :
    joinAmp (p :: q :: rest) = p ++ 38 :: joinAmp (q :: rest) := rfl

/-- `&` never occurs inside one encoded `key=value` part. -/
theorem not_mem_encodedPair_38 (k v : List Nat) :
    38 ∉ quotePlus k ++ 61 :: quotePlus v := by
  intro hmem
  rcases List.mem_append.mp hmem with h | h
  · exact not_mem_quotePlus_38 k h
  · rcases List.mem_cons.mp h with h | h
    · omega
    · exact not_mem_quotePlus_38 v h

/-- Decoding one encoded `key=value` part recovers the pair. -/
theorem parse_encodedPair (k v : List Nat) (hk : isByteSeq k)
    (hv : isByteSeq v) :
    (fun part =>
      let kv := splitFirstByte 61 part
      (decodePlus kv.1, decodePlus kv.2))
      (quotePlus k ++ 61 :: quotePlus v) = (k, v) := by
  simp only [splitFirstByte_append 61 (quotePlus k) (quotePlus v)
    (not_mem_quotePlus_61 k)]
  rw [decodePlus_quotePlus k hk, decodePlus_quotePlus v hv]

/-- Parsing inverts `urlencode` on any non-empty byte-sequence
parameter list. -/
theorem parseQS_pyUrlencode (ps : List (List Nat × List Nat))
    (h : ∀ kv ∈ ps, isByteSeq kv.1 ∧ isByteSeq kv.2) (hne : ps ≠ []) :
    parseQS (pyUrlencode ps) = ps := by
  induction ps with
  | nil => exact absurd rfl hne
  | cons kv rest ih =>
      have hkv := h kv (List.mem_cons_self kv rest)
      have hpair := parse_encodedPair kv.1 kv.2 hkv.1 hkv.2
      simp only at hpair
      cases rest with
      | nil =>
          unfold parseQS pyUrlencode joinAmp
          simp only [List.map_cons, List.map_nil]
          rw [splitOnByte_no_sep 38 _ (not_mem_encodedPair_38 kv.1 kv.2)]
          simp only [List.map_cons, List.map_nil]
          rw [hpair]
      | cons r rs =>
          have hjoin : pyUrlencode (kv :: r :: rs) =
              (quotePlus kv.1 ++ 61 :: quotePlus kv.2) ++
                38 :: pyUrlencode (r :: rs) := by
            unfold pyUrlencode
            simp only [List.map_cons]
            exact joinAmp_cons2 _ _ _
          have hsplit : splitOnByte 38 (pyUrlencode (kv :: r :: rs)) =
              (quotePlus kv.1 ++ 61 :: quotePlus kv.2) ::
                splitOnByte 38 (pyUrlencode (r :: rs)) := by
            rw [hjoin]
            exact splitOnByte_append 38 _ _ (not_mem_encodedPair_38 kv.1 kv.2)
          have hrest : ∀ p ∈ r :: rs, isByteSeq p.1 ∧ isByteSeq p.2 :=
            fun p hp => h p (List.mem_cons_of_mem kv hp)
          have hih := ih hrest (by simp)
          unfold parseQS at hih ⊢
          rw [hsplit, List.map_cons, hpair, hih]

/-- A space-joined list of byte sequences is a byte sequence. -/
theorem isByteSeq_joinSpaceBytes (l : List (List Nat))
    (h : ∀ s ∈ l, isByteSeq s) : isByteSeq (joinSpaceBytes l) := by
  induction l with
  | nil => intro b hb; simp [joinSpaceBytes] at hb
  | cons s rest ih =>
      cases rest with
      | nil =>
          intro b hb
          exact h s (List.mem_cons_self s []) b hb
      | cons r rs =>
          intro b hb
          rw [show joinSpaceBytes (s :: r :: rs) = s ++ 32 :: joinSpaceBytes (r :: rs)
            from rfl] at hb
          rcases List.mem_append.mp hb with hm | hm
          · exact h s (List.mem_cons_self s (r :: rs)) b hm
          · rcases List.mem_cons.mp hm with hm | hm
            · omega
            · exact ih (fun x hx => h x (List.mem_cons_of_mem s hx)) b hm

/-! ## The claims -/

/-- Claim C7: for every diagnosis code entry and patient identifier, the
Condition body built by the sync mapping has `code.coding[0].code`
equal to the diagnosis code, `code.coding[0].system` equal to the
ICD-10-CM system URI, and `subject.reference` equal to
`"Patient/" ++ patientId`. -/
theorem C7_condition_mapping (c d p nowIso : String) :
    (((conditionBody nowIso p ⟨c, d⟩).getField "code" >>=
        fun j => j.getField "coding" >>= fun j => j.getIdx 0 >>=
          fun j => j.getField "code") = some (.str c)) ∧
    (((conditionBody nowIso p ⟨c, d⟩).getField "code" >>=
        fun j => j.getField "coding" >>= fun j => j.getIdx 0 >>=
          fun j => j.getField "system") =
      some (.str "http://hl7.org/fhir/sid/icd-10-cm")) ∧
    (((conditionBody nowIso p ⟨c, d⟩).getField "subject" >>=
        fun j => j.getField "reference") = some (.str ("Patient/" ++ p))) := by
  refine ⟨?_, ?_, ?_⟩ <;> rfl

/-- Claim C10: the public connection-update operation leaves every
credential and authorization field — `client_id`, `client_secret`,
`access_token`, `refresh_token`, `token_expires_at`, `ehr_provider`,
`fhir_version`, `scopes` — unchanged, for every connection and every
update payload, because the update schema exposes no other fields. -/
theorem C10_update_connection_frame (c : EHRConnectionRec)
    (u : EHRConnectionUpdate) :
    (updateConnection c u).client_id = c.client_id ∧
    (updateConnection c u).client_secret = c.client_secret ∧
    (updateConnection c u).access_token = c.access_token ∧
    (updateConnection c u).refresh_token = c.refresh_token ∧
    (updateConnection c u).token_expires_at = c.token_expires_at ∧
    (updateConnection c u).ehr_provider = c.ehr_provider ∧
    (updateConnection c u).fhir_version = c.fhir_version ∧
    (updateConnection c u).scopes = c.scopes := by
  refine ⟨?_, ?_, ?_, ?_, ?_, ?_, ?_, ?_⟩ <;> rfl

/-- Claim C8: when a connection has no truthy `client_id`, the
authorization-URL endpoint fails with HTTP 400, generates no state
token, persists nothing on the connection, and builds no authorization
URL through the wire client. -/
theorem C8_missing_client_id_rejected (conn : EHRConnectionRec)
    (redirect_uri : String) (scopes : Option (List String))
    (freshState : String) (h : optStrTruthy conn.client_id = false) :
    authorizeEndpoint conn redirect_uri scopes freshState =
      ⟨.error ⟨400, "Client ID not configured for this connection"⟩,
       conn, false, false⟩ := by
  unfold authorizeEndpoint
  rw [h]
  simp

/-- Witness for C8 at a concrete connection with a missing client id. -/
theorem C8_witness :
    authorizeEndpoint connNoClientId "https://app.example.com/cb" none
      "fresh-state" =
      ⟨.error ⟨400, "Client ID not configured for this connection"⟩,
       connNoClientId, false, false⟩ :=
  C8_missing_client_id_rejected connNoClientId "https://app.example.com/cb"
    none "fresh-state" rfl

/-- Claim C2 concerns the OAuth2 callback with a mismatched CSRF state:
the specification requires a hard `StateMismatchError` with no token
exchange, but the code only logs a warning and proceeds. Evaluated at a
connection whose stored `last_auth_state` is `"expected-state"` and a
callback carrying `state = "tampered-state"`, the endpoint warns,
still exchanges the authorization code, succeeds, and persists the
token — the divergence the spec itself flags in its design notes. -/
theorem C2_state_mismatch_only_warns :
    (callbackEndpoint connWithState "auth-code" "https://app.example.com/cb"
        (some "tampered-state") (.ok tokenPayloadFull) 5000).warnedStateMismatch
        = true ∧
    (callbackEndpoint connWithState "auth-code" "https://app.example.com/cb"
        (some "tampered-state") (.ok tokenPayloadFull) 5000).codeExchanged
        = true ∧
    (callbackEndpoint connWithState "auth-code" "https://app.example.com/cb"
        (some "tampered-state") (.ok tokenPayloadFull) 5000).result =
      .ok ⟨true, "Authorization successful. Connection is now active.", 1⟩ ∧
    (callbackEndpoint connWithState "auth-code" "https://app.example.com/cb"
        (some "tampered-state") (.ok tokenPayloadFull) 5000).conn.access_token
        = some "new-access-token" := by
  refine ⟨?_, ?_, ?_, ?_⟩ <;> rfl

/-- Counterexample to claim C5 as stated: a successful callback whose
token payload carries no `expires_in` (it is optional in the OAuth2
token response) leaves `token_expires_at` untouched — here `none`,
which is not a timestamp strictly in the future. -/
theorem C5_counterexample :
    ((callbackEndpoint connNoExpiry "auth-code" "https://app.example.com/cb"
        none (.ok tokenPayloadBare) 5000).result =
      .ok ⟨true, "Authorization successful. Connection is now active.", 1⟩) ∧
    (callbackEndpoint connNoExpiry "auth-code" "https://app.example.com/cb"
        none (.ok tokenPayloadBare) 5000).conn.token_expires_at = none := by
  exact ⟨rfl, rfl⟩

/-- Claim C5 (amended): for every successful `completeAuthorization`
call whose token payload has a non-empty `access_token` and a positive
`expires_in`, the connection afterward holds that access token (hence a
truthy one), `token_expires_at = now + expires_in` which is strictly in
the future, and a cleared `last_error`; without `expires_in` the expiry
is left unchanged (see the counterexample). -/
theorem C5_success_persists_tokens (conn : EHRConnectionRec)
    (code redirect_uri : String) (state : Option String)
    (payload : TokenPayload) (now n : Int)
    (hexp : payload.expires_in = some n) (hn : 0 < n)
    (htok : payload.access_token ≠ "") :
    ((callbackEndpoint conn code redirect_uri state (.ok payload) now).result =
      .ok ⟨true, "Authorization successful. Connection is now active.", conn.id⟩) ∧
    (callbackEndpoint conn code redirect_uri state (.ok payload) now).conn.access_token
      = some payload.access_token ∧
    optStrTruthy (callbackEndpoint conn code redirect_uri state
      (.ok payload) now).conn.access_token = true ∧
    (callbackEndpoint conn code redirect_uri state (.ok payload) now).conn.token_expires_at
      = some (now + n) ∧
    now < now + n ∧
    (callbackEndpoint conn code redirect_uri state (.ok payload) now).conn.last_error
      = none := by
  unfold callbackEndpoint updateTokens
  refine ⟨rfl, rfl, ?_, ?_, by omega, rfl⟩
  · simpa [optStrTruthy] using htok
  · simp [hexp, optIntTruthy, show n ≠ 0 by omega]

/-- Witness for C5 at a concrete connection and token payload. -/
theorem C5_witness :
    ((callbackEndpoint connEcw "auth-code" "https://app.example.com/cb"
        none (.ok tokenPayloadFull) 5000).result =
      .ok ⟨true, "Authorization successful. Connection is now active.", 1⟩) ∧
    (callbackEndpoint connEcw "auth-code" "https://app.example.com/cb"
        none (.ok tokenPayloadFull) 5000).conn.access_token
      = some "new-access-token" ∧
    optStrTruthy (callbackEndpoint connEcw "auth-code" "https://app.example.com/cb"
        none (.ok tokenPayloadFull) 5000).conn.access_token = true ∧
    (callbackEndpoint connEcw "auth-code" "https://app.example.com/cb"
        none (.ok tokenPayloadFull) 5000).conn.token_expires_at
      = some (5000 + 3600) ∧
    (5000 : Int) < 5000 + 3600 ∧
    (callbackEndpoint connEcw "auth-code" "https://app.example.com/cb"
        none (.ok tokenPayloadFull) 5000).conn.last_error = none :=
  C5_success_persists_tokens connEcw "auth-code" "https://app.example.com/cb"
    none tokenPayloadFull 5000 3600 rfl (by decide) (by decide)

/-- Claim C6: while `token_expires_at` is more than 5 minutes (300 s)
away, `_ensure_valid_token` returns with the stored access token
unchanged and never invokes the refresh call (so repeated calls in the
window return the same token); once the expiry is 5 minutes away or
less (and a refresh token is held, which is what makes a refresh call
possible at all), the refresh call is invoked, and a refresh failure
propagates as the raised error. -/
theorem C6_ensure_valid_token (st : FHIRTokenState) (now t : Int)
    (rt tok : String) (refreshOutcome : Except String TokenPayload)
    (haccess : st.access_token = some tok) (htok : tok ≠ "")
    (hexp : st.token_expires_at = some t) (hrt : rt ≠ "") :
    (300 < t - now →
      ensureValidToken st now (some rt) refreshOutcome =
        (.ok (st, some rt), false)) ∧
    (t - now ≤ 300 →
      (ensureValidToken st now (some rt) refreshOutcome).2 = true ∧
      ∀ e, refreshOutcome = .error e →
        (ensureValidToken st now (some rt) refreshOutcome).1 = .error e) := by
  have htruthy : optStrTruthy st.access_token = true := by
    rw [haccess]; simpa [optStrTruthy] using htok
  have h2 : optStrTruthy (some rt) = true := by
    simpa [optStrTruthy] using hrt
  constructor
  · intro hwin
    unfold ensureValidToken
    simp [htruthy, hexp, show ¬ (now ≥ t - 300) by omega]
  · intro hwin
    have h1 : now ≥ t - 300 := by omega
    constructor
    · cases refreshOutcome with
      | ok p => unfold ensureValidToken; simp [htruthy, hexp, h1, h2]
      | error e => unfold ensureValidToken; simp [htruthy, hexp, h1, h2]
    · intro e he
      subst he
      unfold ensureValidToken
      simp [htruthy, hexp, h1, h2]

/-- Witness for C6: a token 700 s from expiry is returned unchanged
with no refresh, and a token 100 s from expiry propagates the refresh
failure after invoking the refresh call. -/
theorem C6_witness :
    (ensureValidToken ⟨some "access-1", some 1000⟩ 300 (some "refresh-1")
        (.error "refresh rejected") = (.ok (⟨some "access-1", some 1000⟩,
          some "refresh-1"), false)) ∧
    ((ensureValidToken ⟨some "access-1", some 1000⟩ 900 (some "refresh-1")
        (.error "refresh rejected")).2 = true ∧
      (ensureValidToken ⟨some "access-1", some 1000⟩ 900 (some "refresh-1")
        (.error "refresh rejected")).1 = .error "refresh rejected") := by
  constructor
  · exact (C6_ensure_valid_token ⟨some "access-1", some 1000⟩ 300 1000
      "refresh-1" "access-1" (.error "refresh rejected") rfl (by decide) rfl
      (by decide)).1 (by decide)
  · have h := (C6_ensure_valid_token ⟨some "access-1", some 1000⟩ 900 1000
      "refresh-1" "access-1" (.error "refresh rejected") rfl (by decide) rfl
      (by decide)).2 (by decide)
    exact ⟨h.1, h.2 "refresh rejected" rfl⟩

/-- The authorization URL with a non-empty state is the `/authorize`
endpoint of the base URL followed by the urlencoded six parameters. -/
theorem fhirGetAuthorizationUrl_state_eq (base cid ru : List Nat)
    (scopes : List (List Nat)) (stt : List Nat) (hne : stt ≠ []) :
    fhirGetAuthorizationUrl base (some cid) ru scopes (some stt) =
      base ++ utf8Bytes "/authorize?" ++ pyUrlencode
        [(utf8Bytes "response_type", utf8Bytes "code"),
         (utf8Bytes "client_id", cid),
         (utf8Bytes "redirect_uri", ru),
         (utf8Bytes "scope", joinSpaceBytes scopes),
         (utf8Bytes "aud", base),
         (utf8Bytes "state", stt)] := by
  cases stt with
  | nil => exact absurd rfl hne
  | cons b rest => rfl

/-- Claim C9: `get_authorization_url` is a pure function of the redirect
URI, scopes, state and client configuration, and the URL it produces is
the `/authorize` endpoint of the base URL whose query string decodes to
exactly `response_type=code`, the configured client id, the given
redirect URI, the scopes joined by single spaces, `aud` equal to the
base URL, and the given state. -/
theorem C9_authorization_url_params (base cid ru stt : List Nat)
    (scopes : List (List Nat)) (hb : isByteSeq base) (hc : isByteSeq cid)
    (hr : isByteSeq ru) (hs : isByteSeq stt)
    (hsc : ∀ s ∈ scopes, isByteSeq s) (hne : stt ≠ []) :
    ∃ q, fhirGetAuthorizationUrl base (some cid) ru scopes (some stt) =
        base ++ utf8Bytes "/authorize?" ++ q ∧
      parseQS q =
        [(utf8Bytes "response_type", utf8Bytes "code"),
         (utf8Bytes "client_id", cid),
         (utf8Bytes "redirect_uri", ru),
         (utf8Bytes "scope", joinSpaceBytes scopes),
         (utf8Bytes "aud", base),
         (utf8Bytes "state", stt)] := by
  refine ⟨pyUrlencode
    [(utf8Bytes "response_type", utf8Bytes "code"),
     (utf8Bytes "client_id", cid),
     (utf8Bytes "redirect_uri", ru),
     (utf8Bytes "scope", joinSpaceBytes scopes),
     (utf8Bytes "aud", base),
     (utf8Bytes "state", stt)],
    fhirGetAuthorizationUrl_state_eq base cid ru scopes stt hne, ?_⟩
  apply parseQS_pyUrlencode
  · intro kv hkv
    simp only [List.mem_cons, List.not_mem_nil, or_false] at hkv
    rcases hkv with rfl | rfl | rfl | rfl | rfl | rfl
    · exact ⟨(by decide : isByteSeq (utf8Bytes "response_type")),
             (by decide : isByteSeq (utf8Bytes "code"))⟩
    · exact ⟨(by decide : isByteSeq (utf8Bytes "client_id")), hc⟩
    · exact ⟨(by decide : isByteSeq (utf8Bytes "redirect_uri")), hr⟩
    · exact ⟨(by decide : isByteSeq (utf8Bytes "scope")),
             isByteSeq_joinSpaceBytes scopes hsc⟩
    · exact ⟨(by decide : isByteSeq (utf8Bytes "aud")), hb⟩
    · exact ⟨(by decide : isByteSeq (utf8Bytes "state")), hs⟩
  · simp

/-- Witness for C9 at a concrete configuration, redirect URI, scope
pair and state token. -/
theorem C9_witness :
    ∃ q, fhirGetAuthorizationUrl (utf8Bytes "https://fhir.example.org/fhir/r4")
        (some (utf8Bytes "client-1")) (utf8Bytes "https://app.example.com/cb")
        [utf8Bytes "patient/*.read", utf8Bytes "user/*.write"]
        (some (utf8Bytes "state-abc")) =
        utf8Bytes "https://fhir.example.org/fhir/r4" ++
          utf8Bytes "/authorize?" ++ q ∧
      parseQS q =
        [(utf8Bytes "response_type", utf8Bytes "code"),
         (utf8Bytes "client_id", utf8Bytes "client-1"),
         (utf8Bytes "redirect_uri", utf8Bytes "https://app.example.com/cb"),
         (utf8Bytes "scope",
          joinSpaceBytes [utf8Bytes "patient/*.read", utf8Bytes "user/*.write"]),
         (utf8Bytes "aud", utf8Bytes "https://fhir.example.org/fhir/r4"),
         (utf8Bytes "state", utf8Bytes "state-abc")] :=
  C9_authorization_url_params (utf8Bytes "https://fhir.example.org/fhir/r4")
    (utf8Bytes "client-1") (utf8Bytes "https://app.example.com/cb")
    (utf8Bytes "state-abc")
    [utf8Bytes "patient/*.read", utf8Bytes "user/*.write"]
    (by decide) (by decide) (by decide) (by decide) (by decide) (by decide)

/-- Reduction of the sync endpoint when all pre-checks pass on an
eClinicalWorks connection: the unimported-name `NameError` is raised
inside the try block before any wire call, so one `failed` sync row is
appended with the `NameError` text, the same text lands in
`last_error`, HTTP 500 is returned, and no wire call is attempted. -/
theorem syncEndpoint_ecw_eq (db : Database) (conn : EHRConnectionRec)
    (t : TranscriptionRec) (pid : String) (st : Option (List String))
    (remote : WireCall → Except String Json) (now : Int) (nowIso : String)
    (hactive : conn.is_active = true)
    (htok : optStrTruthy conn.access_token = true)
    (hnote : optStrTruthy t.medical_note = true)
    (hprov : pyLower conn.ehr_provider = "eclinicalworks") :
    syncEndpoint db conn (some t) pid st remote now nowIso =
      { result := .error ⟨500, "Failed to sync to EHR: " ++ ecwNameErrorMsg⟩
        db := { db with syncs := db.syncs ++
          [{ id := db.syncs.length + 1
             connection_id := conn.id
             transcription_id := some t.id
             sync_type := "full_sync"
             fhir_resource_type := none
             fhir_resource_id := none
             status := "failed"
             request_data := some (syncRequestJson pid
               (if ¬ optListTruthy st then ["document", "diagnosis", "procedure"]
                else st.getD []))
             response_data := some (Json.obj [("error", .str ecwNameErrorMsg)]) }] }
        conn := { conn with last_error := some ecwNameErrorMsg }
        calls := [] } := by
  unfold syncEndpoint createSync
  simp [hactive, htok, hnote, hprov]

/-- Reduction of the sync endpoint when all pre-checks pass on a
non-eClinicalWorks connection: the generic branch leaves `results`
empty and makes no wire call, so one `success` sync row is appended,
`last_sync_at` is set and `last_error` cleared. -/
theorem syncEndpoint_generic_eq (db : Database) (conn : EHRConnectionRec)
    (t : TranscriptionRec) (pid : String) (st : Option (List String))
    (remote : WireCall → Except String Json) (now : Int) (nowIso : String)
    (hactive : conn.is_active = true)
    (htok : optStrTruthy conn.access_token = true)
    (hnote : optStrTruthy t.medical_note = true)
    (hprov : ¬ pyLower conn.ehr_provider = "eclinicalworks") :
    syncEndpoint db conn (some t) pid st remote now nowIso =
      { result := .ok ⟨true, "Transcription synced successfully to EHR",
                       db.syncs.length + 1, EcwResults.empty⟩
        db := { db with syncs := db.syncs ++
          [{ id := db.syncs.length + 1
             connection_id := conn.id
             transcription_id := some t.id
             sync_type := "full_sync"
             fhir_resource_type := none
             fhir_resource_id := none
             status := "success"
             request_data := some (syncRequestJson pid
               (if ¬ optListTruthy st then ["document", "diagnosis", "procedure"]
                else st.getD []))
             response_data := some (ecwResultsJson EcwResults.empty) }] }
        conn := { conn with last_sync_at := some now, last_error := none }
        calls := [] } := by
  unfold syncEndpoint createSync
  simp [hactive, htok, hnote, hprov]

/-- Counterexample to claim C1 as stated: syncing a record holding a
note, one diagnosis and one procedure (against a remote whose document
create would fail, matching the claim's scenario) on an eClinicalWorks
connection. The claim asserts each sub-operation is attempted and that
two audit entries survive the document failure; in fact no wire call is
attempted at all (the endpoint's `isinstance` test raises `NameError`
over the unimported class before any create), the audit ledger stays
empty, and the single appended sync row has status `failed`. -/
theorem C1_counterexample :
    ((syncEndpoint dbEmpty connEcw (some txFull) "123" none remoteFailDoc
        5000 "2026-01-01T10:00:00").calls = []) ∧
    ((syncEndpoint dbEmpty connEcw (some txFull) "123" none remoteFailDoc
        5000 "2026-01-01T10:00:00").db.audit_logs.length = 0) ∧
    ((syncEndpoint dbEmpty connEcw (some txFull) "123" none remoteFailDoc
        5000 "2026-01-01T10:00:00").db.syncs.map EHRSyncRow.status
      = ["failed"]) := by
  refine ⟨?_, ?_, ?_⟩ <;> rfl

/-- Claim C1 (amended): sub-operations are not attempted independently —
none is ever attempted. The sync endpoint references
`EClinicalWorksFHIRService` without importing it, so for every
eClinicalWorks sync request that passes the pre-checks the `isinstance`
test raises `NameError` inside the try block before any resource
create: zero remote calls are made, one `EHRSync` row with status
`failed` records the `NameError` text, HTTP 500 is returned, and no
audit entries are recorded — there is no partial success to
preserve. -/
theorem C1_ecw_sync_never_attempts_suboperations (db : Database)
    (conn : EHRConnectionRec) (t : TranscriptionRec)
    (patient_id : String) (sync_types : Option (List String))
    (remote : WireCall → Except String Json) (now : Int) (nowIso : String)
    (hactive : conn.is_active = true)
    (htok : optStrTruthy conn.access_token = true)
    (hnote : optStrTruthy t.medical_note = true)
    (hprov : pyLower conn.ehr_provider = "eclinicalworks") :
    ((syncEndpoint db conn (some t) patient_id sync_types remote now
        nowIso).result =
      .error ⟨500, "Failed to sync to EHR: " ++ ecwNameErrorMsg⟩) ∧
    ((syncEndpoint db conn (some t) patient_id sync_types remote now
        nowIso).calls = []) ∧
    ((syncEndpoint db conn (some t) patient_id sync_types remote now
        nowIso).db.audit_logs = db.audit_logs) ∧
    ((syncEndpoint db conn (some t) patient_id sync_types remote now
        nowIso).db.syncs.map EHRSyncRow.status
      = db.syncs.map EHRSyncRow.status ++ ["failed"]) := by
  rw [syncEndpoint_ecw_eq db conn t patient_id sync_types remote now nowIso
    hactive htok hnote hprov]
  refine ⟨rfl, rfl, rfl, ?_⟩
  simp

/-- Witness for the amended C1 at the concrete connection, record and
remote of the counterexample. -/
theorem C1_witness :
    ((syncEndpoint dbEmpty connEcw (some txFull) "123" none remoteFailDoc
        5000 "2026-01-01T10:00:00").result =
      .error ⟨500, "Failed to sync to EHR: " ++ ecwNameErrorMsg⟩) ∧
    ((syncEndpoint dbEmpty connEcw (some txFull) "123" none remoteFailDoc
        5000 "2026-01-01T10:00:00").calls = []) ∧
    ((syncEndpoint dbEmpty connEcw (some txFull) "123" none remoteFailDoc
        5000 "2026-01-01T10:00:00").db.audit_logs = dbEmpty.audit_logs) ∧
    ((syncEndpoint dbEmpty connEcw (some txFull) "123" none remoteFailDoc
        5000 "2026-01-01T10:00:00").db.syncs.map EHRSyncRow.status
      = dbEmpty.syncs.map EHRSyncRow.status ++ ["failed"]) :=
  C1_ecw_sync_never_attempts_suboperations dbEmpty connEcw txFull "123" none
    remoteFailDoc 5000 "2026-01-01T10:00:00" rfl rfl rfl (by decide)

/-- Claim C3: every individually successful remote resource write during
a sync gets exactly one audit entry, and no successful write occurs
without one. This holds vacuously: the sync endpoint performs no remote
resource write at all — on an eClinicalWorks connection the unimported
`EClinicalWorksFHIRService` name raises `NameError` before any wire
call, and every other provider takes the generic branch, which makes
none — and, consistently, the sync leaves the audit ledger untouched.
The theorem proves both facts for every input. -/
theorem C3_no_write_without_audit :
    ∀ db conn t pid st remote now nowIso,
      (syncEndpoint db conn t pid st remote now nowIso).calls = [] ∧
      (syncEndpoint db conn t pid st remote now nowIso).db.audit_logs
        = db.audit_logs := by
  intro db conn t pid st remote now nowIso
  unfold syncEndpoint createSync
  repeat' split
  all_goals exact ⟨rfl, rfl⟩

/-- Counterexample to claim C4 as stated: a sync request with
`sync_types = ["diagnosis"]` on a record whose diagnosis code list is
empty does not fail with any incomplete-record error — on a
non-eClinicalWorks connection it reports success (with an empty
resource set), so no validation of the code lists ever happens. -/
theorem C4_counterexample :
    ((syncEndpoint dbEmpty connGeneric (some txNoteOnly) "123"
        (some ["diagnosis"]) remoteAllOk 5000 "2026-01-01T10:00:00").result =
      .ok ⟨true, "Transcription synced successfully to EHR", 1,
        EcwResults.empty⟩) ∧
    ((syncEndpoint dbEmpty connGeneric (some txNoteOnly) "123"
        (some ["diagnosis"]) remoteAllOk 5000 "2026-01-01T10:00:00").db.syncs.map
        EHRSyncRow.status = ["success"]) := by
  exact ⟨rfl, rfl⟩

/-- Claim C4 (amended): the only pre-flight content check is on the
note — a sync request whose transcription lacks a truthy `medical_note`
fails with HTTP 400 before any remote call and before any row is
written, **whatever** sync types were requested; empty diagnosis or
procedure code lists are never validated and trigger no
incomplete-record failure: with a note present the request proceeds
into the provider dispatch, and on a non-eClinicalWorks provider it
reports success with an empty resource set (on eClinicalWorks it
instead fails with the unrelated `NameError`-driven HTTP 500, still
with no remote call — see C1). -/
theorem C4_note_required_fail_fast :
    (∀ db conn t pid st remote now nowIso,
      conn.is_active = true →
      optStrTruthy conn.access_token = true →
      optStrTruthy t.medical_note = false →
      syncEndpoint db conn (some t) pid st remote now nowIso =
        ⟨.error ⟨400, "Medical note must be generated before syncing to EHR"⟩,
         db, conn, []⟩) ∧
    (∀ db conn t pid st remote now nowIso,
      conn.is_active = true →
      optStrTruthy conn.access_token = true →
      optStrTruthy t.medical_note = true →
      t.icd10_codes = some [] → t.cpt_codes = some [] →
      ¬ pyLower conn.ehr_provider = "eclinicalworks" →
      (syncEndpoint db conn (some t) pid st remote now nowIso).result =
        .ok ⟨true, "Transcription synced successfully to EHR",
          db.syncs.length + 1, EcwResults.empty⟩ ∧
      (syncEndpoint db conn (some t) pid st remote now nowIso).calls = []) := by
  constructor
  · intro db conn t pid st remote now nowIso hactive htok hnote
    unfold syncEndpoint
    simp [hactive, htok, hnote]
  · intro db conn t pid st remote now nowIso hactive htok hnote hicd hcpt hprov
    rw [syncEndpoint_generic_eq db conn t pid st remote now nowIso
      hactive htok hnote hprov]
    exact ⟨rfl, rfl⟩

/-- Witness for the amended C4: the note-less record is rejected with
HTTP 400 and no calls, and the note-plus-empty-lists record on a
non-eClinicalWorks connection reports success with no resources. -/
theorem C4_witness :
    (syncEndpoint dbEmpty connEcw (some txNoNote) "123" none remoteAllOk
        5000 "2026-01-01T10:00:00" =
      ⟨.error ⟨400, "Medical note must be generated before syncing to EHR"⟩,
       dbEmpty, connEcw, []⟩) ∧
    ((syncEndpoint dbEmpty connGeneric (some txNoteOnly) "123"
        (some ["diagnosis"]) remoteAllOk 5000 "2026-01-01T10:00:00").result =
      .ok ⟨true, "Transcription synced successfully to EHR", 1,
        EcwResults.empty⟩ ∧
     (syncEndpoint dbEmpty connGeneric (some txNoteOnly) "123"
        (some ["diagnosis"]) remoteAllOk 5000 "2026-01-01T10:00:00").calls
       = []) :=
  ⟨C4_note_required_fail_fast.1 dbEmpty connEcw txNoNote "123" none
      remoteAllOk 5000 "2026-01-01T10:00:00" rfl rfl rfl,
   C4_note_required_fail_fast.2 dbEmpty connGeneric txNoteOnly "123"
      (some ["diagnosis"]) remoteAllOk 5000 "2026-01-01T10:00:00"
      rfl rfl rfl rfl rfl (by decide)⟩
